import Mathlib

/-!
Shallow embedding of `src/server.py` (a minimal HTTP/1.1 origin server) and
proofs about the claims of its specification.

Modelling conventions:
* Python byte strings are `List Nat` (each element a byte value).
* Python exceptions are the error side of `Except PyErr`.
* The filesystem is an association list from path strings to `FSFile`
  records carrying the text-mode read result, the binary-mode read result
  and the `st_mode` permission bits.
* `datetime.datetime.now()` is an explicit `now : String` parameter.
* `urllib.parse.unquote` is modelled at the byte level: a `%XX` escape with
  two hex digits becomes the character of that byte value.  This coincides
  with Python for ASCII escapes; the theorems below only apply it to inputs
  without percent signs, where it is the identity.
-/

/-- Python exception kinds raised by the modelled code paths. -/
inductive PyErr where
  | indexError
  | keyError
  | typeError
  | fileNotFoundError
deriving DecidableEq, Repr

/-- A Python value that is either a `str` or a `bytes` object
(`ResponseBuilder.content` holds either). -/
inductive Content where
  | str (s : String)
  | bytes (b : List Nat)
deriving DecidableEq, Repr

/-- UTF-8 encoding of a single character (the byte sequence that Python
`str.encode` produces for it). -/
def utf8EncodeChar (c : Char) : List Nat :=
  let n := c.toNat
  if n < 128 then [n]
  else if n < 2048 then [192 + n / 64, 128 + n % 64]
  else if n < 65536 then [224 + n / 4096, 128 + (n / 64) % 64, 128 + n % 64]
  else [240 + n / 262144, 128 + (n / 4096) % 64, 128 + (n / 64) % 64, 128 + n % 64]

/-- UTF-8 encoding of a string, as a byte list (`str.encode("utf-8")`). -/
def utf8Encode (s : String) : List Nat := s.data.flatMap utf8EncodeChar

/-- Python list indexing `xs[i]` for a nonnegative index: raises `IndexError`
when out of range. -/
def pyIndex {α : Type} (xs : List α) (i : Nat) : Except PyErr α :=
  match xs.get? i with
  | some a => Except.ok a
  | none => Except.error PyErr.indexError

/-- Python `xs[-1]`: the last element, `IndexError` on an empty list. -/
def pyLast {α : Type} (xs : List α) : Except PyErr α :=
  match xs.getLast? with
  | some a => Except.ok a
  | none => Except.error PyErr.indexError

/-- Split a character list at every character satisfying `p`
(the splitting core of Python `str.split`). -/
def splitPred (p : Char → Bool) : List Char → List (List Char)
  | [] => [[]]
  | c :: cs =>
    if p c then [] :: splitPred p cs
    else
      match splitPred p cs with
      | [] => [[c]]
      | h :: t => (c :: h) :: t

/-- Python `s.split(sep)` for a one-character separator `sep`. -/
def pySplitChar (sep : Char) (s : String) : List String :=
  (splitPred (fun c => c == sep) s.data).map String.mk

/-- Python whitespace characters (the set used by `str.strip()` and the
no-argument `str.split()`). -/
def pyIsSpace (c : Char) : Bool :=
  c == ' ' || c == '\t' || c == '\n' || c == '\r' || c == '\x0b' || c == '\x0c'

/-- Python `s.strip()`. -/
def pyStrip (s : String) : String :=
  String.mk (((s.data.dropWhile pyIsSpace).reverse.dropWhile pyIsSpace).reverse)

/-- Python no-argument `s.split()`: split on whitespace runs, dropping empty
words. -/
def pySplitWs (s : String) : List String :=
  ((splitPred pyIsSpace s.data).filter (fun l => !l.isEmpty)).map String.mk

/-- Split a character list on the two-character terminator `\r\n`
(Python `s.split("\r\n")`). -/
def splitCRLFAux : List Char → List (List Char)
  | [] => [[]]
  | '\r' :: '\n' :: rest => [] :: splitCRLFAux rest
  | c :: rest =>
    match splitCRLFAux rest with
    | [] => [[c]]
    | h :: t => (c :: h) :: t

/-- Python `s.split("\r\n")`. -/
def pySplitCRLF (s : String) : List String := (splitCRLFAux s.data).map String.mk

/-- Python `sep.join(xs)`. -/
def pyJoin (sep : String) : List String → String
  | [] => ""
  | [x] => x
  | x :: y :: xs => x ++ sep ++ pyJoin sep (y :: xs)

/-- Hex digit test used by the percent-escape decoder. -/
def isHexDigit (c : Char) : Bool :=
  c.isDigit || ('a' ≤ c && c ≤ 'f') || ('A' ≤ c && c ≤ 'F')

/-- Numeric value of a hex digit. -/
def hexVal (c : Char) : Nat :=
  if c.isDigit then c.toNat - 48
  else if 'a' ≤ c then c.toNat - 87
  else c.toNat - 55

/-- Byte-level model of `urllib.parse.unquote`: a valid `%XX` escape becomes
the character with that byte value, anything else is copied through. -/
def pyUnquoteAux : List Char → List Char
  | [] => []
  | '%' :: h1 :: h2 :: rest2 =>
    if isHexDigit h1 && isHexDigit h2 then
      Char.ofNat (16 * hexVal h1 + hexVal h2) :: pyUnquoteAux rest2
    else '%' :: pyUnquoteAux (h1 :: h2 :: rest2)
  | c :: rest => c :: pyUnquoteAux rest

/-- Model of `urllib.parse.unquote` on strings. -/
def pyUnquoteStr (s : String) : String := String.mk (pyUnquoteAux s.data)

/-- Python `s.replace("+", " ")` (single-character replacement). -/
def pyReplacePlus (s : String) : String :=
  String.mk (s.data.map (fun c => if c = '+' then ' ' else c))

/-- Python `str(x)` applied to `self.content_type` (an optional string:
`str(None)` is the string `None`). -/
def pyStrOfOpt : Option String → String
  | some s => s
  | none => "None"

/-- The protocol line terminator, `NEWLINE = "\r\n"` in the source. -/
def NEWLINE : String := "\r\n"

/-- A file of the backing store: the string a text-mode `read()` yields, the
bytes a binary-mode `read()` yields, and the `st_mode` permission bits. -/
structure FSFile where
  text : String
  bytes : List Nat
  mode : Nat
deriving DecidableEq, Repr

/-- The read-only filesystem, an association list from paths to files
(`os.path.exists` is lookup success). -/
abbrev FS := List (String × FSFile)

/-- Permission bit `stat.S_IROTH` (octal 0o004). -/
def S_IROTH : Nat := 4

/-- Embeds `has_permission_other`: `getattr(stat, "S_IROTH") & stmode > 0`,
i.e. the 0o004 bit of the mode is set.  Takes the stat mode directly in
place of stat-ing a file name. -/
def has_permission_other (stmode : Nat) : Bool :=
  decide (stmode / S_IROTH % 2 = 1)

/-- The `binary_type_files` set of the source. -/
def binary_type_files : List String := ["jpg", "jpeg", "png", "mp3"]

/-- Embeds `should_return_binary`. -/
def should_return_binary (file_extension : String) : Bool :=
  binary_type_files.contains file_extension

/-- The `mime_types` dictionary of the source, in insertion order. -/
def mime_types : List (String × String) :=
  [("html", "text/html"),
   ("css", "text/css"),
   ("jpeg", "image/jpeg"),
   ("jpg", "image/jpg"),
   ("js", "text/javascript"),
   ("png", "image/png"),
   ("mp3", "audio/mpeg")]

/-- Embeds `get_file_mime_type`: dictionary indexing raises `KeyError` when
the extension is absent; the `text/plain` default is returned only when the
argument is the Python value `None`. -/
def get_file_mime_type (file_extension : Option String) : Except PyErr String :=
  match file_extension with
  | none => Except.ok ("text/plain")
  | some e =>
    match mime_types.lookup e with
    | some m => Except.ok m
    | none => Except.error PyErr.keyError

/-- State of the source `ResponseBuilder` after constructor defaults:
no headers, no status, content the empty `str`, no content type. -/
structure ResponseBuilder where
  headers : List String := []
  status : Option String := none
  content : Content := Content.str ("")
  content_type : Option String := none
deriving DecidableEq, Repr

/-- Embeds `ResponseBuilder.add_header`: appends the line built from the
header key, a colon-space separator, and the header value. -/
def add_header (rb : ResponseBuilder) (headerKey headerValue : String) : ResponseBuilder :=
  { rb with headers := rb.headers ++ [headerKey ++ (": ") ++ headerValue] }

/-- Embeds `ResponseBuilder.set_status`. -/
def set_status (rb : ResponseBuilder) (statusCode statusMessage : String) : ResponseBuilder :=
  { rb with status := some (("HTTP/1.1 ") ++ statusCode ++ (" ") ++ statusMessage) }

/-- Embeds `ResponseBuilder.set_content`: a `str` is encoded to UTF-8 bytes,
a `bytes` object is stored unchanged. -/
def set_content (rb : ResponseBuilder) (content : Content) : ResponseBuilder :=
  match content with
  | Content.bytes b => { rb with content := Content.bytes b }
  | Content.str s => { rb with content := Content.bytes (utf8Encode s) }

/-- The Python test `self.content == ""`: true only when the content is the `str`
`""` (a `bytes` value never equals a `str`). -/
def contentEqEmptyStr : Content → Bool
  | Content.str s => s == ""
  | Content.bytes _ => false

/-- The Python value `len(self.content)`: characters of a `str`, bytes of a `bytes`. -/
def pyLen : Content → Nat
  | Content.str s => s.length
  | Content.bytes b => b.length

/-- The exact byte length of the body that ends up in the built message. -/
def contentByteLen : Content → Nat
  | Content.str s => (utf8Encode s).length
  | Content.bytes b => b.length

/-- The header list after the four `add_header` calls made by
`ResponseBuilder.build` (lines 332-348 of the source).  Note the keys passed
there already end in `": "`, so each produced line carries a doubled
separator. -/
def build_headers (rb : ResponseBuilder) (now : String) : List String :=
  let rb1 := add_header rb ("Date: ") now
  if contentEqEmptyStr rb1.content then
    (add_header
      (add_header
        (add_header rb1 ("Content-Type: ") ("text/plain"))
        ("Content-Length: ") ("0"))
      ("Server: ") ("Jacks HTTP server")).headers
  else
    (add_header
      (add_header
        (add_header rb1 ("Content-Type: ") (pyStrOfOpt rb1.content_type))
        ("Content-Length: ") (toString (pyLen rb1.content)))
      ("Server: ") ("Jacks HTTP server")).headers

/-- Embeds `ResponseBuilder.build`: joins the status line, the headers and
the content with CRLF terminators; a `bytes` content is appended raw, a
`str` content is encoded with everything else.  `None + str` would raise
`TypeError`, hence the status match. -/
def build (rb : ResponseBuilder) (now : String) : Except PyErr (List Nat) :=
  let hs := build_headers rb now
  match rb.status with
  | none => Except.error PyErr.typeError
  | some st =>
    let headersJoined := pyJoin NEWLINE hs ++ NEWLINE
    match rb.content with
    | Content.bytes b =>
      Except.ok (utf8Encode (st ++ NEWLINE ++ headersJoined ++ NEWLINE) ++ b ++ utf8Encode NEWLINE)
    | Content.str s =>
      Except.ok (utf8Encode (st ++ NEWLINE ++ headersJoined ++ NEWLINE ++ s ++ NEWLINE))

/-- Embeds `HTTPServer.resource_not_found`: 404 response whose body is the
text of `./404.html` (`FileNotFoundError` when that resource is absent). -/
def resource_not_found (fs : FS) : Except PyErr ResponseBuilder :=
  let builder : ResponseBuilder := {}
  let builder := set_status builder ("404") ("RESOURCE NOT FOUND")
  let builder := add_header builder ("Connection") ("close")
  match fs.lookup ("./404.html") with
  | none => Except.error PyErr.fileNotFoundError
  | some f =>
    let builder := set_content builder (Content.str f.text)
    Except.ok { builder with content_type := some ("text/html") }

/-- Embeds `HTTPServer.resource_forbidden`: 403 response whose body is the
text of `./403.html`. -/
def resource_forbidden (fs : FS) : Except PyErr ResponseBuilder :=
  let builder : ResponseBuilder := {}
  let builder := set_status builder ("403") ("RESOURCE FORBIDDEN")
  let builder := add_header builder ("Connection") ("close")
  match fs.lookup ("./403.html") with
  | none => Except.error PyErr.fileNotFoundError
  | some f =>
    let builder := set_content builder (Content.str f.text)
    Except.ok { builder with content_type := some ("text/html") }

/-- Embeds `HTTPServer.method_not_allowed`. -/
def method_not_allowed : ResponseBuilder :=
  let builder : ResponseBuilder := {}
  let builder := set_status builder ("405") ("METHOD NOT ALLOWED")
  let allowed := pyJoin (", ") [("GET"), ("POST")]
  let builder := add_header builder ("Allow") allowed
  add_header builder ("Connection") ("close")

/-- Embeds lines 162-164 of `get_request`: the file extension is index 2 of
splitting the resolved path `"./" + target` on `.` (an `IndexError` when that
split has fewer than three segments), or `""` when the resolved path has no
dot (unreachable, since `"./"` contains one). -/
def extracted_extension (target : String) : Except PyErr String :=
  let rf := ("./") ++ target
  if rf.data.contains ('.') then pyIndex (pySplitChar ('.') rf) 2 else Except.ok ("")

/-- The true extension of a file name: its last `.`-separated segment. -/
def last_dot_segment (target : String) : String :=
  (pySplitChar ('.') target).getLastD ("")

/-- Embeds `HTTPServer.get_request`.  Returns the fully populated builder;
`build` is applied by the caller (`process_response` below), with the current
date passed explicitly. -/
def get_request (fs : FS) (requested_file : String) : Except PyErr ResponseBuilder :=
  let rf := ("./") ++ requested_file
  match fs.lookup rf with
  | none => resource_not_found fs
  | some f =>
    if !(has_permission_other f.mode) then resource_forbidden fs
    else do
      let file_extension ← extracted_extension requested_file
      let response_body : Content :=
        if should_return_binary file_extension then Content.bytes f.bytes
        else Content.str f.text
      let builder : ResponseBuilder := {}
      let builder := set_status builder ("200") ("OK")
      let builder := add_header builder ("Connection") ("close")
      let builder := set_content builder response_body
      let ct ← get_file_mime_type (some file_extension)
      Except.ok { builder with content_type := some ct }

/-- Embeds `HTTPServer.formatString`: split on `=`, take index 1, replace
`+` by space. -/
def formatString (stringToParse : String) : Except PyErr String := do
  let splitString := pySplitChar ('=') stringToParse
  let event ← pyIndex splitString 1
  Except.ok (pyReplacePlus event)

/-- A table cell `<th>...</th>` of the POST echo page. -/
def cellTag (s : String) : String := ("<th>") ++ s ++ ("</th>")

/-- Template text of the POST echo page before `<th>event</th>`. -/
def htmlHead : String :=
  "<html>\n                        <style>\n                        table, th, td \x7b\n                          border:1px solid black;\n                        \x7d\n                        </style>\n                        <body>\n\n                        <table style=\"width:100%\">\n                          <tr>\n                            "

/-- Template text between a label cell and its value cell. -/
def htmlGap : String := "\n                            "

/-- Template text between a value cell and the next label cell when the
table row is properly closed (rows one through six). -/
def htmlMid : String :=
  "\n                          </tr>\n                          <tr>\n                            "

/-- Template text between a value cell and the next label cell for the last
two rows, where the source omits the closing `</tr>`. -/
def htmlMidOpen : String :=
  "\n                          <tr>\n                            "

/-- Template text after the last value cell. -/
def htmlTail : String :=
  "\n                        </table>\n\n                        </body>\n                        </html>\n                        "

/-- The HTML document `post_request` concatenates (lines 216-259 of the
source), with the eight formatted values spliced in.  The grouping keeps
each `<th>...</th>` cell as one `cellTag` sub-term. -/
def htmlDoc (v0 v1 v2 v3 v4 v5 v6 v7 : String) : String :=
  htmlHead ++ (cellTag ("event") ++ (htmlGap ++ (cellTag v0 ++
  (htmlMid ++ (cellTag ("day") ++ (htmlGap ++ (cellTag v1 ++
  (htmlMid ++ (cellTag ("start") ++ (htmlGap ++ (cellTag v2 ++
  (htmlMid ++ (cellTag ("end") ++ (htmlGap ++ (cellTag v3 ++
  (htmlMid ++ (cellTag ("phone") ++ (htmlGap ++ (cellTag v4 ++
  (htmlMid ++ (cellTag ("location") ++ (htmlGap ++ (cellTag v5 ++
  (htmlMidOpen ++ (cellTag ("info") ++ (htmlGap ++ (cellTag v6 ++
  (htmlMidOpen ++ (cellTag ("url") ++ (htmlGap ++ (cellTag v7 ++
  htmlTail)))))))))))))))))))))))))))))))

/-- Embeds `HTTPServer.post_request`: takes the last request line, URL
decodes it, splits it on `&`, formats the eight fields in order and splices
them into the fixed HTML table. -/
def post_request (data : List String) : Except PyErr ResponseBuilder := do
  let usefulString ← pyLast data
  let usefulString := pyUnquoteStr usefulString
  let usefulStrings := pySplitChar ('&') usefulString
  let v0 ← formatString (← pyIndex usefulStrings 0)
  let v1 ← formatString (← pyIndex usefulStrings 1)
  let v2 ← formatString (← pyIndex usefulStrings 2)
  let v3 ← formatString (← pyIndex usefulStrings 3)
  let v4 ← formatString (← pyIndex usefulStrings 4)
  let v5 ← formatString (← pyIndex usefulStrings 5)
  let v6 ← formatString (← pyIndex usefulStrings 6)
  let v7 ← formatString (← pyIndex usefulStrings 7)
  let html := htmlDoc v0 v1 v2 v3 v4 v5 v6 v7
  let builder : ResponseBuilder := {}
  let builder := set_status builder ("200") ("OK")
  let builder := add_header builder ("Connection") ("close")
  let builder := set_content builder (Content.str html)
  Except.ok { builder with content_type := some ("text/html") }

/-- Embeds `HTTPServer.process_response`: strip, split on CRLF, split the
first line into words; an empty word list returns Python `None` (modelled
`Except.ok none`); otherwise `request_words[1]` is indexed before method
dispatch.  The handler call `builder.build()` is applied here with the
explicit `now` argument. -/
def process_response (fs : FS) (now : String) (request : String) :
    Except PyErr (Option (List Nat)) := do
  let formatted_data := pySplitCRLF (pyStrip request)
  let request_words := pySplitWs (← pyIndex formatted_data 0)
  if request_words.length = 0 then
    Except.ok none
  else do
    let w1 ← pyIndex request_words 1
    let requested_file := w1.drop 1
    let w0 ← pyIndex request_words 0
    if w0 = ("GET") then do
      let rb ← get_request fs requested_file
      let out ← build rb now
      Except.ok (some out)
    else if w0 = ("POST") then do
      let rb ← post_request formatted_data
      let out ← build rb now
      Except.ok (some out)
    else do
      let out ← build method_not_allowed now
      Except.ok (some out)

/-- Composition of `get_request` with `build`, mirroring the source line
that returns the built bytes directly. -/
def get_request_bytes (fs : FS) (requested_file : String) (now : String) :
    Except PyErr (List Nat) := do
  build (← get_request fs requested_file) now

/-- States that the strings of `chunks` occur inside the string `s` in
order, without overlap. -/
def chunksIn (s : String) : List String → Prop
  | [] => True
  | c :: cs => ∃ x y, s = x ++ (c ++ y) ∧ chunksIn y cs

/-! ### Helper lemmas about the string and list primitives -/

theorem str_ext {s t : String} (h : s.data = t.data) : s = t := congrArg String.mk h

theorem utf8Encode_append (s t : String) :
    utf8Encode (s ++ t) = utf8Encode s ++ utf8Encode t := by
  simp [utf8Encode, String.data_append, List.flatMap_append]

theorem pyJoin_cons_cons (sep x y : String) (xs : List String) :
    pyJoin sep (x :: y :: xs) = x ++ sep ++ pyJoin sep (y :: xs) := rfl

theorem encode_join (hs : List String) (h : hs ≠ []) :
    utf8Encode (pyJoin NEWLINE hs) ++ utf8Encode NEWLINE =
      hs.flatMap (fun s => utf8Encode s ++ utf8Encode NEWLINE) := by
  induction hs with
  | nil => exact absurd rfl h
  | cons x xs ih =>
    cases xs with
    | nil => simp [pyJoin]
    | cons y ys =>
      rw [pyJoin_cons_cons, List.flatMap_cons, ← ih (by simp)]
      simp [utf8Encode_append, List.append_assoc]

theorem splitPred_ne_nil (p : Char → Bool) (l : List Char) : splitPred p l ≠ [] := by
  cases l with
  | nil => simp [splitPred]
  | cons c cs =>
    simp only [splitPred]
    split
    · simp
    · split <;> simp

theorem splitPred_cons_of_pos (p : Char → Bool) (c : Char) (cs : List Char)
    (h : p c = true) : splitPred p (c :: cs) = [] :: splitPred p cs := by
  simp [splitPred, h]

theorem splitPred_cons_of_neg (p : Char → Bool) (c : Char) (cs : List Char)
    (h : p c = false) :
    splitPred p (c :: cs) = (splitPred p cs).modifyHead (c :: ·) := by
  rcases hs : splitPred p cs with _ | ⟨a, t⟩
  · exact absurd hs (splitPred_ne_nil p cs)
  · simp [splitPred, h, hs]

theorem splitPred_append_of_neg (p : Char → Bool) (xs ys : List Char)
    (hx : ∀ c ∈ xs, p c = false) :
    splitPred p (xs ++ ys) = (splitPred p ys).modifyHead (xs ++ ·) := by
  induction xs with
  | nil =>
    rcases hs : splitPred p ys with _ | ⟨a, t⟩
    · exact absurd hs (splitPred_ne_nil p ys)
    · simp [hs]
  | cons c cs ih =>
    rw [List.cons_append, splitPred_cons_of_neg p c (cs ++ ys) (hx c (by simp)),
      ih (fun d hd => hx d (by simp [hd]))]
    rcases hs : splitPred p ys with _ | ⟨a, t⟩
    · exact absurd hs (splitPred_ne_nil p ys)
    · simp

theorem splitPred_eq_single (p : Char → Bool) (xs : List Char)
    (hx : ∀ c ∈ xs, p c = false) : splitPred p xs = [xs] := by
  have h := splitPred_append_of_neg p xs [] hx
  simpa [splitPred] using h

theorem splitPred_chunk (p : Char → Bool) (sep : Char) (xs ys : List Char)
    (hx : ∀ c ∈ xs, p c = false) (hsep : p sep = true) :
    splitPred p (xs ++ sep :: ys) = xs :: splitPred p ys := by
  rw [splitPred_append_of_neg p xs _ hx, splitPred_cons_of_pos p sep ys hsep]
  simp

theorem pyUnquoteAux_id (l : List Char) (h : ('%') ∉ l) : pyUnquoteAux l = l := by
  induction l with
  | nil => rfl
  | cons c cs ih =>
    rw [List.mem_cons, not_or] at h
    obtain ⟨hc, hcs⟩ := h
    rw [pyUnquoteAux.eq_def]
    split
    · simp_all
    · simp_all
    · next c2 rest hne heq =>
        injection heq with e1 e2
        subst e1
        subst e2
        exact congrArg (c :: ·) (ih hcs)

theorem pyUnquoteStr_id (s : String) (h : ('%') ∉ s.data) : pyUnquoteStr s = s :=
  str_ext (pyUnquoteAux_id s.data h)

theorem pyIndex_err {α : Type} (xs : List α) (i : Nat) (h : xs.length ≤ i) :
    pyIndex xs i = Except.error PyErr.indexError := by
  unfold pyIndex
  rw [List.get?_eq_none.2 h]

theorem pyIndex_split {α : Type} (xs : List α) (i : Nat) :
    pyIndex xs i = Except.error PyErr.indexError ∨ ∃ a, pyIndex xs i = Except.ok a := by
  unfold pyIndex
  cases xs.get? i <;> simp

theorem chunksIn_cons (x c y : String) (cs : List String) (h : chunksIn y cs) :
    chunksIn (x ++ (c ++ y)) (c :: cs) := ⟨x, y, rfl, h⟩

theorem htmlDoc_chunks (v0 v1 v2 v3 v4 v5 v6 v7 : String) :
    chunksIn (htmlDoc v0 v1 v2 v3 v4 v5 v6 v7)
      [cellTag ("event"), cellTag v0, cellTag ("day"), cellTag v1,
       cellTag ("start"), cellTag v2, cellTag ("end"), cellTag v3,
       cellTag ("phone"), cellTag v4, cellTag ("location"), cellTag v5,
       cellTag ("info"), cellTag v6, cellTag ("url"), cellTag v7] :=
  chunksIn_cons _ _ _ _ (chunksIn_cons _ _ _ _ (chunksIn_cons _ _ _ _
    (chunksIn_cons _ _ _ _ (chunksIn_cons _ _ _ _ (chunksIn_cons _ _ _ _
    (chunksIn_cons _ _ _ _ (chunksIn_cons _ _ _ _ (chunksIn_cons _ _ _ _
    (chunksIn_cons _ _ _ _ (chunksIn_cons _ _ _ _ (chunksIn_cons _ _ _ _
    (chunksIn_cons _ _ _ _ (chunksIn_cons _ _ _ _ (chunksIn_cons _ _ _ _
    (chunksIn_cons _ _ _ _ trivial)))))))))))))))

theorem build_headers_eq (rb : ResponseBuilder) (now : String) :
    build_headers rb now = rb.headers ++
      [("Date: : ") ++ now,
       ("Content-Type: : ") ++
         (if contentEqEmptyStr rb.content then ("text/plain")
          else pyStrOfOpt rb.content_type),
       ("Content-Length: : ") ++
         (if contentEqEmptyStr rb.content then ("0")
          else toString (pyLen rb.content)),
       ("Server: : Jacks HTTP server")] := by
  by_cases hemp : contentEqEmptyStr rb.content
  · simp [build_headers, add_header, hemp, String.append_assoc]
  · simp [build_headers, add_header, hemp, String.append_assoc]

theorem build_headers_ne_nil (rb : ResponseBuilder) (now : String) :
    build_headers rb now ≠ [] := by
  rw [build_headers_eq]
  simp

theorem build_bytes_eq (rb : ResponseBuilder) (now st : String) (b : List Nat)
    (hst : rb.status = some st) (hc : rb.content = Content.bytes b) :
    build rb now = Except.ok (utf8Encode st ++ utf8Encode NEWLINE ++
      (build_headers rb now).flatMap (fun s => utf8Encode s ++ utf8Encode NEWLINE) ++
      utf8Encode NEWLINE ++ b ++ utf8Encode NEWLINE) := by
  simp only [build, hst, hc]
  rw [← encode_join (build_headers rb now) (build_headers_ne_nil rb now)]
  simp [utf8Encode_append, List.append_assoc]

theorem build_str_eq (rb : ResponseBuilder) (now st s : String)
    (hst : rb.status = some st) (hc : rb.content = Content.str s) :
    build rb now = Except.ok (utf8Encode st ++ utf8Encode NEWLINE ++
      (build_headers rb now).flatMap (fun h => utf8Encode h ++ utf8Encode NEWLINE) ++
      utf8Encode NEWLINE ++ utf8Encode s ++ utf8Encode NEWLINE) := by
  simp only [build, hst, hc]
  rw [← encode_join (build_headers rb now) (build_headers_ne_nil rb now)]
  simp [utf8Encode_append, List.append_assoc]

/-! ### Claim theorems -/

/-- Claim C1 (confirmed): for every response produced by the Response
Builder — any status, any sequence of added headers, and any content
reachable through the builder interface (the initial empty `str`, or the
`bytes` stored by `set_content` for text as well as binary input) — the
value written for the Content-Length header equals the exact byte length of
the body content placed in the built message, and is `"0"` when the content
is empty.  (The header name `build` emits is malformed, see C9; the value
is exact.) -/
theorem claim1_content_length (headers : List String) (status ct : Option String)
    (c : Content) (now : String)
    (hc : c = Content.str ("") ∨ ∃ bs, c = Content.bytes bs) :
    (("Content-Length: : ") ++ toString (contentByteLen c)) ∈
        build_headers (ResponseBuilder.mk headers status c ct) now
    ∧ (contentByteLen c = 0 →
        ("Content-Length: : 0") ∈
          build_headers (ResponseBuilder.mk headers status c ct) now) := by
  rcases hc with rfl | ⟨bs, rfl⟩
  · rw [build_headers_eq]
    have e : toString (0 : Nat) = ("0") := rfl
    refine ⟨?_, fun _ => ?_⟩
    · simp [contentEqEmptyStr, contentByteLen, utf8Encode, e]
    · simp [contentEqEmptyStr]
  · rw [build_headers_eq]
    refine ⟨?_, fun h => ?_⟩
    · simp [contentEqEmptyStr, contentByteLen, pyLen]
    · have hb : bs = [] := List.length_eq_zero.mp h
      subst hb
      have e : toString (0 : Nat) = ("0") := rfl
      simp [contentEqEmptyStr, pyLen, e]

/-- Witness for C1 at a concrete builder state: a three-byte binary body
gets Content-Length value 3. -/
theorem claim1_content_length_witness :
    ("Content-Length: : 3") ∈
      build_headers (ResponseBuilder.mk [] none (Content.bytes [1, 2, 3]) none) ("d") := by
  have h := claim1_content_length [] none none (Content.bytes [1, 2, 3]) ("d")
    (Or.inr ⟨_, rfl⟩)
  simpa using h.1

/-- Counterexample to C8 as stated: serving an existing, world-readable,
empty `.html` file stores the empty body through `set_content`, so the
content is the `bytes` object `b""`; `build` compares it with the `str`
`""`, which is false in Python, so the Content-Type header keeps the
handler value `text/html` instead of defaulting to `text/plain`.  Content-Length
is still `"0"`. -/
theorem claim8_counterexample :
    get_request [(("./e.html"), FSFile.mk ("") [] 7)] ("e.html") =
      Except.ok (ResponseBuilder.mk [("Connection: close")]
        (some ("HTTP/1.1 200 OK")) (Content.bytes []) (some ("text/html")))
    ∧ contentByteLen (Content.bytes []) = 0
    ∧ ("Content-Type: : text/html") ∈
        build_headers (ResponseBuilder.mk [("Connection: close")]
          (some ("HTTP/1.1 200 OK")) (Content.bytes []) (some ("text/html"))) ("d")
    ∧ ("Content-Type: : text/plain") ∉
        build_headers (ResponseBuilder.mk [("Connection: close")]
          (some ("HTTP/1.1 200 OK")) (Content.bytes []) (some ("text/html"))) ("d")
    ∧ ("Content-Length: : 0") ∈
        build_headers (ResponseBuilder.mk [("Connection: close")]
          (some ("HTTP/1.1 200 OK")) (Content.bytes []) (some ("text/html"))) ("d") :=
  ⟨rfl, rfl, by decide, by decide, by decide⟩

/-- Claim C8 (corrected): for every built response with empty content the
Content-Length value is `"0"`; but the Content-Type only defaults to
`text/plain` when the content is the initial, never-set empty
`str` — when `set_content` stored an empty body (`bytes`), the header
carries the `content_type` attribute of the builder instead. -/
theorem claim8_amended (headers : List String) (status ct : Option String)
    (c : Content) (now : String)
    (hc : c = Content.str ("") ∨ c = Content.bytes []) :
    (("Content-Length: : 0") ∈
        build_headers (ResponseBuilder.mk headers status c ct) now)
    ∧ (c = Content.str ("") →
        ("Content-Type: : text/plain") ∈
          build_headers (ResponseBuilder.mk headers status c ct) now)
    ∧ (c = Content.bytes [] →
        (("Content-Type: : ") ++ pyStrOfOpt ct) ∈
          build_headers (ResponseBuilder.mk headers status c ct) now) := by
  rcases hc with rfl | rfl
  · rw [build_headers_eq]
    refine ⟨?_, fun _ => ?_, fun h => by simp at h⟩
    · simp [contentEqEmptyStr]
    · simp [contentEqEmptyStr]
  · rw [build_headers_eq]
    have e : toString (0 : Nat) = ("0") := rfl
    refine ⟨?_, fun h => by simp at h, fun _ => ?_⟩
    · simp [contentEqEmptyStr, pyLen, e]
    · simp [contentEqEmptyStr]

/-- Witness for C8 (amended) at a concrete builder state with an empty
`bytes` body and content type `text/html`. -/
theorem claim8_amended_witness :
    ("Content-Length: : 0") ∈
      build_headers (ResponseBuilder.mk [] none (Content.bytes [])
        (some ("text/html"))) ("d")
    ∧ ("Content-Type: : text/html") ∈
      build_headers (ResponseBuilder.mk [] none (Content.bytes [])
        (some ("text/html"))) ("d") := by
  have h := claim8_amended [] none (some ("text/html")) (Content.bytes []) ("d")
    (Or.inr rfl)
  exact ⟨h.1, by simpa using h.2.2 rfl⟩

/-- Counterexample to C9 as stated: the four headers appended by `build` are
passed keys that already end in `": "`, so the emitted lines are
`Name: : Value`, not `Name: Value` — e.g. the 405 response carries
`Content-Length: : 0` and `Date: : d`, and the well-formed variants are
absent.  Handler-added headers such as `Allow: GET, POST` are well formed. -/
theorem claim9_counterexample :
    ("Content-Length: : 0") ∈ build_headers method_not_allowed ("d")
    ∧ ("Content-Length: 0") ∉ build_headers method_not_allowed ("d")
    ∧ ("Date: : d") ∈ build_headers method_not_allowed ("d")
    ∧ ("Date: d") ∉ build_headers method_not_allowed ("d")
    ∧ ("Allow: GET, POST") ∈ build_headers method_not_allowed ("d") := by
  decide

/-- Claim C9 (corrected): every header line added through `add_header` with
a plain name has the form `Name: Value`; the four headers appended by
`build` instead have the form `Name: : Value` because the keys passed there
carry a trailing colon-space; and one blank line (a doubled CRLF) separates
the header block from the body. -/
theorem claim9_amended (rb : ResponseBuilder) (k v now st : String)
    (hst : rb.status = some st) :
    (add_header rb k v).headers = rb.headers ++ [k ++ (": ") ++ v]
    ∧ build_headers rb now = rb.headers ++
        [("Date: : ") ++ now,
         ("Content-Type: : ") ++
           (if contentEqEmptyStr rb.content then ("text/plain")
            else pyStrOfOpt rb.content_type),
         ("Content-Length: : ") ++
           (if contentEqEmptyStr rb.content then ("0")
            else toString (pyLen rb.content)),
         ("Server: : Jacks HTTP server")]
    ∧ (∃ tail, build rb now = Except.ok
        (utf8Encode (st ++ NEWLINE ++ (pyJoin NEWLINE (build_headers rb now) ++ NEWLINE)
          ++ NEWLINE) ++ tail)) := by
  refine ⟨rfl, build_headers_eq rb now, ?_⟩
  cases hcon : rb.content with
  | bytes b =>
    exact ⟨b ++ utf8Encode NEWLINE, by
      simp [build, hst, hcon, List.append_assoc]⟩
  | str s =>
    exact ⟨utf8Encode s ++ utf8Encode NEWLINE, by
      simp [build, hst, hcon, utf8Encode_append, List.append_assoc]⟩

/-- Witness for C9 (amended) at the 405 builder. -/
theorem claim9_amended_witness :
    (add_header method_not_allowed ("X") ("Y")).headers =
      method_not_allowed.headers ++ [("X") ++ (": ") ++ ("Y")] :=
  (claim9_amended method_not_allowed ("X") ("Y") ("d")
    ("HTTP/1.1 405 METHOD NOT ALLOWED") rfl).1

theorem except_bind_ok {α β : Type} (a : α) (f : α → Except PyErr β) :
    (Except.ok a >>= f) = f a := rfl

theorem get_request_200 (fs : FS) (target ext m : String) (f : FSFile)
    (hf : fs.lookup (("./") ++ target) = some f)
    (hperm : has_permission_other f.mode = true)
    (hext : extracted_extension target = Except.ok ext)
    (hm : mime_types.lookup ext = some m) :
    get_request fs target = Except.ok (ResponseBuilder.mk [("Connection: close")]
      (some ("HTTP/1.1 200 OK"))
      (Content.bytes (if should_return_binary ext then f.bytes else utf8Encode f.text))
      (some m)) := by
  by_cases hb : should_return_binary ext
  · simp [get_request, hf, hperm, hext, hb, get_file_mime_type, hm, set_content,
      set_status, add_header, except_bind_ok]
  · simp [get_request, hf, hperm, hext, hb, get_file_mime_type, hm, set_content,
      set_status, add_header, except_bind_ok]

/-- Claim C5 (confirmed): every built message is
`statusLine CRLF (headerLine CRLF)* CRLF body CRLF`, where everything but a
`bytes` body is UTF-8 encoded and a `bytes` body is appended byte-for-byte;
consequently a GET of a world-readable file whose extracted extension is a
binary one (jpg, jpeg, png, mp3) answers with the raw bytes of the file,
as the message body. -/
theorem claim5_message_framing :
    (∀ (rb : ResponseBuilder) (now st : String) (b : List Nat),
      rb.status = some st → rb.content = Content.bytes b →
      build rb now = Except.ok (utf8Encode st ++ utf8Encode NEWLINE ++
        (build_headers rb now).flatMap (fun h => utf8Encode h ++ utf8Encode NEWLINE) ++
        utf8Encode NEWLINE ++ b ++ utf8Encode NEWLINE))
    ∧ (∀ (rb : ResponseBuilder) (now st s : String),
      rb.status = some st → rb.content = Content.str s →
      build rb now = Except.ok (utf8Encode st ++ utf8Encode NEWLINE ++
        (build_headers rb now).flatMap (fun h => utf8Encode h ++ utf8Encode NEWLINE) ++
        utf8Encode NEWLINE ++ utf8Encode s ++ utf8Encode NEWLINE))
    ∧ (∀ (fs : FS) (target now ext m : String) (f : FSFile),
      fs.lookup (("./") ++ target) = some f →
      has_permission_other f.mode = true →
      extracted_extension target = Except.ok ext →
      should_return_binary ext = true →
      mime_types.lookup ext = some m →
      get_request_bytes fs target now = Except.ok
        (utf8Encode ("HTTP/1.1 200 OK") ++ utf8Encode NEWLINE ++
         (build_headers (ResponseBuilder.mk [("Connection: close")]
            (some ("HTTP/1.1 200 OK")) (Content.bytes f.bytes) (some m)) now).flatMap
           (fun h => utf8Encode h ++ utf8Encode NEWLINE) ++
         utf8Encode NEWLINE ++ f.bytes ++ utf8Encode NEWLINE)) := by
  refine ⟨fun rb now st b hst hc => build_bytes_eq rb now st b hst hc,
    fun rb now st s hst hc => build_str_eq rb now st s hst hc,
    fun fs target now ext m f hf hperm hext hb hm => ?_⟩
  have hg := get_request_200 fs target ext m f hf hperm hext hm
  simp only [hb, if_true] at hg
  rw [get_request_bytes, hg]
  exact build_bytes_eq (ResponseBuilder.mk [("Connection: close")]
    (some ("HTTP/1.1 200 OK")) (Content.bytes f.bytes) (some m)) now
    ("HTTP/1.1 200 OK") f.bytes rfl rfl

/-- Witness for C5 at a concrete builder and a concrete one-file store
holding a two-byte png. -/
theorem claim5_message_framing_witness :
    get_request_bytes [(("./p.png"), FSFile.mk ("") [9, 8] 7)] ("p.png") ("d") =
      Except.ok
        (utf8Encode ("HTTP/1.1 200 OK") ++ utf8Encode NEWLINE ++
         (build_headers (ResponseBuilder.mk [("Connection: close")]
            (some ("HTTP/1.1 200 OK")) (Content.bytes [9, 8])
            (some ("image/png"))) ("d")).flatMap
           (fun h => utf8Encode h ++ utf8Encode NEWLINE) ++
         utf8Encode NEWLINE ++ [9, 8] ++ utf8Encode NEWLINE) :=
  claim5_message_framing.2.2 [(("./p.png"), FSFile.mk ("") [9, 8] 7)]
    ("p.png") ("d") ("png") ("image/png") (FSFile.mk ("") [9, 8] 7)
    rfl rfl rfl rfl rfl

/-- Claim C6 (confirmed): a GET of an existing path whose mode denies the
`S_IROTH` (others-read) bit — owner and group bits arbitrary — yields the
403 response: status `403 RESOURCE FORBIDDEN`, body the `403.html` resource
text, content type `text/html`. -/
theorem claim6_forbidden (fs : FS) (target : String) (f err : FSFile)
    (hf : fs.lookup (("./") ++ target) = some f)
    (hperm : has_permission_other f.mode = false)
    (herr : fs.lookup ("./403.html") = some err) :
    get_request fs target = Except.ok (ResponseBuilder.mk [("Connection: close")]
      (some ("HTTP/1.1 403 RESOURCE FORBIDDEN"))
      (Content.bytes (utf8Encode err.text)) (some ("text/html"))) := by
  simp [get_request, hf, hperm, resource_forbidden, herr, set_content, set_status,
    add_header]

/-- Witness for C6: mode 0o770 (full owner and group access, nothing for
others) on an existing file is answered with the 403 page. -/
theorem claim6_forbidden_witness :
    get_request [(("./x"), FSFile.mk ("") [] 504),
        (("./403.html"), FSFile.mk ("no") [110, 111] 7)] ("x") =
      Except.ok (ResponseBuilder.mk [("Connection: close")]
        (some ("HTTP/1.1 403 RESOURCE FORBIDDEN"))
        (Content.bytes (utf8Encode ("no"))) (some ("text/html"))) :=
  claim6_forbidden [(("./x"), FSFile.mk ("") [] 504),
      (("./403.html"), FSFile.mk ("no") [110, 111] 7)] ("x")
    (FSFile.mk ("") [] 504) (FSFile.mk ("no") [110, 111] 7) rfl rfl rfl

/-- Counterexample to C2 as stated: `get_file_mime_type` only returns the
`text/plain` default when its argument is Python `None`, which never
happens — the extension is always a string — so a GET of an existing,
world-readable file whose extension is not in the table (`notes.txt`)
raises `KeyError`, and a GET of an extensionless file (`README`) raises
`IndexError` in the `split(".")[2]` step; neither produces a response. -/
theorem claim2_counterexample :
    get_request [(("./notes.txt"), FSFile.mk ("x") [120] 7)] ("notes.txt") =
      Except.error PyErr.keyError
    ∧ get_request [(("./README"), FSFile.mk ("x") [120] 7)] ("README") =
      Except.error PyErr.indexError := ⟨rfl, rfl⟩

/-- Claim C2 (corrected): a GET of an existing world-readable file answers
200 with Content-Length the exact byte size of the file and Content-Type the
table entry — provided the `split(".")[2]`-extracted extension is a key of
the table (text-mode files assumed stored as the UTF-8 bytes of their
text).  Unknown or missing extensions crash instead of defaulting to
`text/plain` (see the counterexample). -/
theorem claim2_amended (fs : FS) (target ext m now : String) (f : FSFile)
    (hf : fs.lookup (("./") ++ target) = some f)
    (hperm : has_permission_other f.mode = true)
    (hext : extracted_extension target = Except.ok ext)
    (hm : mime_types.lookup ext = some m)
    (hcoh : should_return_binary ext = false → utf8Encode f.text = f.bytes) :
    get_request fs target = Except.ok (ResponseBuilder.mk [("Connection: close")]
      (some ("HTTP/1.1 200 OK")) (Content.bytes f.bytes) (some m))
    ∧ (("Content-Length: : ") ++ toString f.bytes.length) ∈
        build_headers (ResponseBuilder.mk [("Connection: close")]
          (some ("HTTP/1.1 200 OK")) (Content.bytes f.bytes) (some m)) now
    ∧ (("Content-Type: : ") ++ m) ∈
        build_headers (ResponseBuilder.mk [("Connection: close")]
          (some ("HTTP/1.1 200 OK")) (Content.bytes f.bytes) (some m)) now := by
  refine ⟨?_, ?_, ?_⟩
  · have hg := get_request_200 fs target ext m f hf hperm hext hm
    by_cases hb : should_return_binary ext
    · simpa [hb] using hg
    · rw [hg]
      simp [hb, hcoh (by simp [hb])]
  · rw [build_headers_eq]
    simp [contentEqEmptyStr, pyLen]
  · rw [build_headers_eq]
    simp [contentEqEmptyStr, pyStrOfOpt]

/-- Witness for C2 (amended): a two-byte `index.html` is served with
status 200, Content-Length 2 and Content-Type `text/html`. -/
theorem claim2_amended_witness :
    get_request [(("./index.html"), FSFile.mk ("hi") [104, 105] 7)] ("index.html") =
      Except.ok (ResponseBuilder.mk [("Connection: close")]
        (some ("HTTP/1.1 200 OK")) (Content.bytes [104, 105])
        (some ("text/html")))
    ∧ (("Content-Length: : ") ++ toString ([104, 105] : List Nat).length) ∈
        build_headers (ResponseBuilder.mk [("Connection: close")]
          (some ("HTTP/1.1 200 OK")) (Content.bytes [104, 105])
          (some ("text/html"))) ("d") :=
  have h := claim2_amended [(("./index.html"), FSFile.mk ("hi") [104, 105] 7)]
    ("index.html") ("html") ("text/html") ("d")
    (FSFile.mk ("hi") [104, 105] 7) rfl rfl rfl rfl (fun _ => by decide)
  ⟨h.1, h.2.1⟩

/-- Counterexample to C4 as stated: the target `a.b.c` has exactly two dots
before its final segment, yet `split(".")[2]` on the resolved path yields
`b`, not the true last-segment extension `c`; while the one-dot target
`index.html` (other dot count) is extracted correctly. -/
theorem claim4_counterexample :
    (("a.b.c") : String).data.count ('.') = 2
    ∧ extracted_extension ("a.b.c") = Except.ok ("b")
    ∧ last_dot_segment ("a.b.c") = ("c")
    ∧ (("b") : String) ≠ (("c") : String)
    ∧ (("index.html") : String).data.count ('.') = 1
    ∧ extracted_extension ("index.html") = Except.ok (("html") : String)
    ∧ last_dot_segment ("index.html") = (("html") : String) :=
  ⟨rfl, rfl, rfl, by decide, rfl, rfl, rfl⟩

/-- Claim C4 (corrected): the extension used by the GET handler is index 2
of splitting the resolved path `"./" + target` on `.`; because the leading
`./` adds one extra dot, this equals the true last-segment
extension exactly when the target contains exactly one dot (equivalently,
the resolved path has exactly two dots before the extension segment), not
two. -/
theorem claim4_amended (xs ys : List Char) (hx : ('.') ∉ xs) (hy : ('.') ∉ ys) :
    extracted_extension (String.mk (xs ++ ('.') :: ys)) = Except.ok (String.mk ys)
    ∧ last_dot_segment (String.mk (xs ++ ('.') :: ys)) = String.mk ys := by
  have hxs : ∀ c ∈ xs, (c == ('.')) = false := by
    intro c hc
    simp only [beq_eq_false_iff_ne, ne_eq]
    exact fun e => hx (e ▸ hc)
  have hys : ∀ c ∈ ys, (c == ('.')) = false := by
    intro c hc
    simp only [beq_eq_false_iff_ne, ne_eq]
    exact fun e => hy (e ▸ hc)
  have hdata : (((("./") ++ String.mk (xs ++ ('.') :: ys))).data) =
      ('.') :: ((('/') :: xs) ++ ('.') :: ys) := by
    rw [String.data_append]
    rfl
  have hsplit : splitPred (fun c => c == ('.'))
      ((("./") ++ String.mk (xs ++ ('.') :: ys)).data) = [[], ('/') :: xs, ys] := by
    rw [hdata, splitPred_cons_of_pos _ _ _ (by simp),
      splitPred_chunk _ ('.') (('/') :: xs) ys ?hpre (by simp),
      splitPred_eq_single _ ys hys]
    case hpre =>
      intro c hc
      rcases List.mem_cons.mp hc with rfl | hc
      · rfl
      · exact hxs c hc
  have htarget : splitPred (fun c => c == ('.')) (String.mk (xs ++ ('.') :: ys)).data
      = [xs, ys] := by
    have : (String.mk (xs ++ ('.') :: ys)).data = xs ++ ('.') :: ys := rfl
    rw [this, splitPred_chunk _ ('.') xs ys hxs (by simp),
      splitPred_eq_single _ ys hys]
  constructor
  · have hcon : ((("./") ++ String.mk (xs ++ ('.') :: ys)).data).contains ('.') = true := by
      rw [hdata]
      simp [List.contains]
    rw [extracted_extension]
    simp only [hcon, if_true, pySplitChar, hsplit]
    rfl
  · rw [last_dot_segment]
    simp only [pySplitChar, htarget]
    rfl

/-- Witness for C4 (amended) at the one-dot target `ab.c`. -/
theorem claim4_amended_witness :
    extracted_extension (String.mk [('a'), ('b'), ('.'), ('c')]) =
      Except.ok (String.mk [('c')])
    ∧ last_dot_segment (String.mk [('a'), ('b'), ('.'), ('c')]) =
      String.mk [('c')] :=
  claim4_amended [('a'), ('b')] [('c')] (by decide) (by decide)

theorem except_bind_err {α β : Type} (e : PyErr) (f : α → Except PyErr β) :
    ((Except.error e : Except PyErr α) >>= f) = Except.error e := rfl

theorem splitCRLFAux_ne_nil (l : List Char) : splitCRLFAux l ≠ [] := by
  rw [splitCRLFAux.eq_def]
  split
  · simp
  · simp
  · split <;> simp

theorem pySplitCRLF_ne_nil (s : String) : pySplitCRLF s ≠ [] := by
  intro hcontra
  rw [pySplitCRLF] at hcontra
  exact splitCRLFAux_ne_nil s.data (List.map_eq_nil_iff.mp hcontra)

theorem formatString_split (s : String) :
    formatString s = Except.error PyErr.indexError ∨
      ∃ v, formatString s = Except.ok v := by
  rw [formatString]
  rcases pyIndex_split (pySplitChar ('=') s) 1 with h | ⟨a, h⟩
  · left
    rw [h]
    rfl
  · right
    exact ⟨pyReplacePlus a, by rw [h]; rfl⟩

/-- Claim C10 (confirmed): `process_response` reads `request_words[1]`
before method dispatch, so a request whose first line has exactly one word
raises `IndexError` and yields no response, while the zero-word case is
guarded and returns Python `None`. -/
theorem claim10_one_word (fs : FS) (now request : String) :
    ((pySplitWs ((pySplitCRLF (pyStrip request)).headD (""))).length = 1 →
      process_response fs now request = Except.error PyErr.indexError)
    ∧ ((pySplitWs ((pySplitCRLF (pyStrip request)).headD (""))).length = 0 →
      process_response fs now request = Except.ok none) := by
  rcases hl : pySplitCRLF (pyStrip request) with _ | ⟨line0, rest⟩
  · exact absurd hl (pySplitCRLF_ne_nil _)
  · have hidx : pyIndex (line0 :: rest) 0 = Except.ok line0 := rfl
    constructor
    · intro h1
      rw [List.headD_cons] at h1
      have herr : pyIndex (pySplitWs line0) 1 = Except.error PyErr.indexError :=
        pyIndex_err _ 1 (by omega)
      simp [process_response, hl, hidx, except_bind_ok, except_bind_err, h1, herr]
      intro hc
      rw [hc] at h1
      simp at h1
    · intro h0
      rw [List.headD_cons] at h0
      simp [process_response, hl, hidx, except_bind_ok, h0]
      intro hc
      exact absurd (List.length_eq_zero.mp h0) hc

/-- Witness for C10: the request `GET` (one word, no target) is processed
into an `IndexError`, not a response. -/
theorem claim10_one_word_witness :
    (pySplitWs ((pySplitCRLF (pyStrip ("GET"))).headD (""))).length = 1
    ∧ process_response [] ("d") ("GET") = Except.error PyErr.indexError :=
  ⟨by decide, (claim10_one_word [] ("d") ("GET")).1 (by decide)⟩

/-- Claim C7 (code_bug): a POST whose body line decodes to fewer than eight
`&`-separated fields does not produce the 400-class "malformed form body"
response the specification requires: each access `usefulStrings[i]` (and
the `split("=")[1]` inside `formatString`) can only raise `IndexError`, and
with fewer than eight fragments the index-7 access is out of bounds, so the
handler aborts with `IndexError` and produces no response at all. -/
theorem bind_err_prop {α β : Type} {e : Except PyErr α} {f : α → Except PyErr β}
    (he : e = Except.error PyErr.indexError ∨ ∃ a, e = Except.ok a)
    (hf : ∀ a, e = Except.ok a → f a = Except.error PyErr.indexError) :
    (e >>= f) = Except.error PyErr.indexError := by
  rcases he with h | ⟨a, h⟩
  · rw [h]
    rfl
  · rw [h, except_bind_ok]
    exact hf a h

theorem claim7_short_body_crashes (data : List String) (body : String)
    (hlast : pyLast data = Except.ok body)
    (hlen : (pySplitChar ('&') (pyUnquoteStr body)).length < 8) :
    post_request data = Except.error PyErr.indexError := by
  have h7 : pyIndex (pySplitChar ('&') (pyUnquoteStr body)) 7 =
      Except.error PyErr.indexError := pyIndex_err _ 7 (by omega)
  simp only [post_request, hlast, except_bind_ok]
  refine bind_err_prop (pyIndex_split _ 0) (fun a0 h0 => ?_)
  refine bind_err_prop (formatString_split a0) (fun v0 g0 => ?_)
  refine bind_err_prop (pyIndex_split _ 1) (fun a1 h1 => ?_)
  refine bind_err_prop (formatString_split a1) (fun v1 g1 => ?_)
  refine bind_err_prop (pyIndex_split _ 2) (fun a2 h2 => ?_)
  refine bind_err_prop (formatString_split a2) (fun v2 g2 => ?_)
  refine bind_err_prop (pyIndex_split _ 3) (fun a3 h3 => ?_)
  refine bind_err_prop (formatString_split a3) (fun v3 g3 => ?_)
  refine bind_err_prop (pyIndex_split _ 4) (fun a4 h4 => ?_)
  refine bind_err_prop (formatString_split a4) (fun v4 g4 => ?_)
  refine bind_err_prop (pyIndex_split _ 5) (fun a5 h5 => ?_)
  refine bind_err_prop (formatString_split a5) (fun v5 g5 => ?_)
  refine bind_err_prop (pyIndex_split _ 6) (fun a6 h6 => ?_)
  refine bind_err_prop (formatString_split a6) (fun v6 g6 => ?_)
  rw [h7]
  rfl

/-- Witness for C7: the one-field body `event=X` aborts the POST handler
with `IndexError`. -/
theorem claim7_short_body_crashes_witness :
    (pySplitChar ('&') (pyUnquoteStr ("event=X"))).length < 8
    ∧ post_request [("event=X")] = Except.error PyErr.indexError :=
  ⟨by decide, claim7_short_body_crashes [("event=X")] ("event=X") rfl (by decide)⟩

theorem not_mem_append {α : Type} {x : α} {l1 l2 : List α}
    (h1 : x ∉ l1) (h2 : x ∉ l2) : x ∉ l1 ++ l2 :=
  fun hc => (List.mem_append.mp hc).elim h1 h2

theorem not_mem_cons {α : Type} {x c : α} {l : List α}
    (h1 : x ≠ c) (h2 : x ∉ l) : x ∉ c :: l :=
  fun hc => (List.mem_cons.mp hc).elim h1 h2

theorem formatString_mk (pre : List Char) (v : String)
    (hpre : ∀ c ∈ pre, (c == ('=')) = false)
    (hv : ∀ c ∈ v.data, (c == ('=')) = false) :
    formatString (String.mk (pre ++ ('=') :: v.data)) =
      Except.ok (pyReplacePlus v) := by
  have hsp : pySplitChar ('=') (String.mk (pre ++ ('=') :: v.data)) =
      [String.mk pre, String.mk v.data] := by
    rw [pySplitChar,
      show (String.mk (pre ++ ('=') :: v.data)).data = pre ++ ('=') :: v.data from rfl,
      splitPred_chunk _ ('=') pre v.data hpre (by decide),
      splitPred_eq_single _ v.data hv]
    rfl
  simp only [formatString, hsp]
  rfl

/-- Claim C3 (confirmed): a POST whose last request line is a well-formed
eight-field urlencoded body `event=A&day=B&...&url=H` (the values free of
percent signs, ampersands and equals signs, spaces encoded as `+`) yields a
200 `text/html` response whose body is the fixed HTML table pairing, in
fixed position order, each field label with the decoded field value (URL
decoding is the identity on these inputs; `+` becomes space). -/
theorem claim3_post_echo (data : List String) (a b c d e f g h : String)
    (hfree : ∀ v ∈ [a, b, c, d, e, f, g, h], ∀ ch ∈ v.data,
      ch ≠ ('%') ∧ ch ≠ ('&') ∧ ch ≠ ('='))
    (hlast : pyLast data = Except.ok (("event=") ++ a ++ ("&day=") ++ b ++
      ("&start=") ++ c ++ ("&end=") ++ d ++ ("&phone=") ++ e ++
      ("&location=") ++ f ++ ("&info=") ++ g ++ ("&url=") ++ h)) :
    post_request data = Except.ok (ResponseBuilder.mk [("Connection: close")]
      (some ("HTTP/1.1 200 OK"))
      (Content.bytes (utf8Encode (htmlDoc (pyReplacePlus a) (pyReplacePlus b)
        (pyReplacePlus c) (pyReplacePlus d) (pyReplacePlus e) (pyReplacePlus f)
        (pyReplacePlus g) (pyReplacePlus h))))
      (some ("text/html")))
    ∧ chunksIn
        (htmlDoc (pyReplacePlus a) (pyReplacePlus b) (pyReplacePlus c)
          (pyReplacePlus d) (pyReplacePlus e) (pyReplacePlus f)
          (pyReplacePlus g) (pyReplacePlus h))
        [cellTag ("event"), cellTag (pyReplacePlus a),
         cellTag ("day"), cellTag (pyReplacePlus b),
         cellTag ("start"), cellTag (pyReplacePlus c),
         cellTag ("end"), cellTag (pyReplacePlus d),
         cellTag ("phone"), cellTag (pyReplacePlus e),
         cellTag ("location"), cellTag (pyReplacePlus f),
         cellTag ("info"), cellTag (pyReplacePlus g),
         cellTag ("url"), cellTag (pyReplacePlus h)] := by
  refine ⟨?_, htmlDoc_chunks _ _ _ _ _ _ _ _⟩
  have hv : ∀ v ∈ [a, b, c, d, e, f, g, h],
      (('%') ∉ v.data) ∧ (∀ ch ∈ v.data, (ch == ('&')) = false) ∧
      (∀ ch ∈ v.data, (ch == ('=')) = false) := by
    intro v hvmem
    refine ⟨fun hch => absurd rfl ((hfree v hvmem ('%') hch).1),
      fun ch hch => ?_, fun ch hch => ?_⟩
    · simpa using (hfree v hvmem ch hch).2.1
    · simpa using (hfree v hvmem ch hch).2.2
  obtain ⟨hpa, haa, hea⟩ := hv a (by simp)
  obtain ⟨hpb, hab, heb⟩ := hv b (by simp)
  obtain ⟨hpc, hac, hec⟩ := hv c (by simp)
  obtain ⟨hpd, had, hed⟩ := hv d (by simp)
  obtain ⟨hpe, hae, hee⟩ := hv e (by simp)
  obtain ⟨hpf, haf, hef⟩ := hv f (by simp)
  obtain ⟨hpg, hag, heg⟩ := hv g (by simp)
  obtain ⟨hph, hah, heh⟩ := hv h (by simp)
  set L : String := ("event=") ++ a ++ ("&day=") ++ b ++ ("&start=") ++ c ++
    ("&end=") ++ d ++ ("&phone=") ++ e ++ ("&location=") ++ f ++
    ("&info=") ++ g ++ ("&url=") ++ h with hLdef
  have dl1 : (("&day=") : String).data = ('&') :: (("day=") : String).data := rfl
  have dl2 : (("&start=") : String).data = ('&') :: (("start=") : String).data := rfl
  have dl3 : (("&end=") : String).data = ('&') :: (("end=") : String).data := rfl
  have dl4 : (("&phone=") : String).data = ('&') :: (("phone=") : String).data := rfl
  have dl5 : (("&location=") : String).data = ('&') :: (("location=") : String).data := rfl
  have dl6 : (("&info=") : String).data = ('&') :: (("info=") : String).data := rfl
  have dl7 : (("&url=") : String).data = ('&') :: (("url=") : String).data := rfl
  have hLdata : L.data = (((("event=") : String).data ++ a.data) ++ (('&') :: (((("day=") : String).data ++ b.data) ++ (('&') :: (((("start=") : String).data ++ c.data) ++ (('&') :: (((("end=") : String).data ++ d.data) ++ (('&') :: (((("phone=") : String).data ++ e.data) ++ (('&') :: (((("location=") : String).data ++ f.data) ++ (('&') :: (((("info=") : String).data ++ g.data) ++ (('&') :: ((("url=") : String).data ++ h.data))))))))))))))) := by
    simp [hLdef, String.data_append, dl1, dl2, dl3, dl4, dl5, dl6, dl7, List.append_assoc]
  have hnp : ('%') ∉ L.data := by
    rw [hLdata]
    exact (not_mem_append (not_mem_append (by decide) hpa) (not_mem_cons (by decide) (not_mem_append (not_mem_append (by decide) hpb) (not_mem_cons (by decide) (not_mem_append (not_mem_append (by decide) hpc) (not_mem_cons (by decide) (not_mem_append (not_mem_append (by decide) hpd) (not_mem_cons (by decide) (not_mem_append (not_mem_append (by decide) hpe) (not_mem_cons (by decide) (not_mem_append (not_mem_append (by decide) hpf) (not_mem_cons (by decide) (not_mem_append (not_mem_append (by decide) hpg) (not_mem_cons (by decide) (not_mem_append (by decide) hph)))))))))))))))
  have hunq : pyUnquoteStr L = L := pyUnquoteStr_id L hnp
  have hF0 : ∀ ch ∈ (("event=") : String).data ++ a.data,
      (ch == ('&')) = false := by
    have lit : ∀ ch ∈ (("event=") : String).data, (ch == ('&')) = false := by decide
    exact fun ch hch => (List.mem_append.mp hch).elim (lit ch) (haa ch)
  have hF1 : ∀ ch ∈ (("day=") : String).data ++ b.data,
      (ch == ('&')) = false := by
    have lit : ∀ ch ∈ (("day=") : String).data, (ch == ('&')) = false := by decide
    exact fun ch hch => (List.mem_append.mp hch).elim (lit ch) (hab ch)
  have hF2 : ∀ ch ∈ (("start=") : String).data ++ c.data,
      (ch == ('&')) = false := by
    have lit : ∀ ch ∈ (("start=") : String).data, (ch == ('&')) = false := by decide
    exact fun ch hch => (List.mem_append.mp hch).elim (lit ch) (hac ch)
  have hF3 : ∀ ch ∈ (("end=") : String).data ++ d.data,
      (ch == ('&')) = false := by
    have lit : ∀ ch ∈ (("end=") : String).data, (ch == ('&')) = false := by decide
    exact fun ch hch => (List.mem_append.mp hch).elim (lit ch) (had ch)
  have hF4 : ∀ ch ∈ (("phone=") : String).data ++ e.data,
      (ch == ('&')) = false := by
    have lit : ∀ ch ∈ (("phone=") : String).data, (ch == ('&')) = false := by decide
    exact fun ch hch => (List.mem_append.mp hch).elim (lit ch) (hae ch)
  have hF5 : ∀ ch ∈ (("location=") : String).data ++ f.data,
      (ch == ('&')) = false := by
    have lit : ∀ ch ∈ (("location=") : String).data, (ch == ('&')) = false := by decide
    exact fun ch hch => (List.mem_append.mp hch).elim (lit ch) (haf ch)
  have hF6 : ∀ ch ∈ (("info=") : String).data ++ g.data,
      (ch == ('&')) = false := by
    have lit : ∀ ch ∈ (("info=") : String).data, (ch == ('&')) = false := by decide
    exact fun ch hch => (List.mem_append.mp hch).elim (lit ch) (hag ch)
  have hF7 : ∀ ch ∈ (("url=") : String).data ++ h.data,
      (ch == ('&')) = false := by
    have lit : ∀ ch ∈ (("url=") : String).data, (ch == ('&')) = false := by decide
    exact fun ch hch => (List.mem_append.mp hch).elim (lit ch) (hah ch)
  have hsplit : splitPred (fun ch => ch == ('&')) L.data =
      [(("event=") : String).data ++ a.data,
       (("day=") : String).data ++ b.data,
       (("start=") : String).data ++ c.data,
       (("end=") : String).data ++ d.data,
       (("phone=") : String).data ++ e.data,
       (("location=") : String).data ++ f.data,
       (("info=") : String).data ++ g.data,
       (("url=") : String).data ++ h.data] := by
    rw [hLdata,
      splitPred_chunk _ ('&') _ _ hF0 (by decide),
      splitPred_chunk _ ('&') _ _ hF1 (by decide),
      splitPred_chunk _ ('&') _ _ hF2 (by decide),
      splitPred_chunk _ ('&') _ _ hF3 (by decide),
      splitPred_chunk _ ('&') _ _ hF4 (by decide),
      splitPred_chunk _ ('&') _ _ hF5 (by decide),
      splitPred_chunk _ ('&') _ _ hF6 (by decide),
      splitPred_eq_single _ _ hF7]
  have hsplitStr : pySplitChar ('&') L =
      [String.mk ((("event=") : String).data ++ a.data),
       String.mk ((("day=") : String).data ++ b.data),
       String.mk ((("start=") : String).data ++ c.data),
       String.mk ((("end=") : String).data ++ d.data),
       String.mk ((("phone=") : String).data ++ e.data),
       String.mk ((("location=") : String).data ++ f.data),
       String.mk ((("info=") : String).data ++ g.data),
       String.mk ((("url=") : String).data ++ h.data)] := by
    rw [pySplitChar, hsplit]
    rfl
  have hfs0 : formatString (String.mk ((("event=") : String).data ++ a.data)) =
      Except.ok (pyReplacePlus a) :=
    formatString_mk (("event") : String).data a (by decide) hea
  have hfs1 : formatString (String.mk ((("day=") : String).data ++ b.data)) =
      Except.ok (pyReplacePlus b) :=
    formatString_mk (("day") : String).data b (by decide) heb
  have hfs2 : formatString (String.mk ((("start=") : String).data ++ c.data)) =
      Except.ok (pyReplacePlus c) :=
    formatString_mk (("start") : String).data c (by decide) hec
  have hfs3 : formatString (String.mk ((("end=") : String).data ++ d.data)) =
      Except.ok (pyReplacePlus d) :=
    formatString_mk (("end") : String).data d (by decide) hed
  have hfs4 : formatString (String.mk ((("phone=") : String).data ++ e.data)) =
      Except.ok (pyReplacePlus e) :=
    formatString_mk (("phone") : String).data e (by decide) hee
  have hfs5 : formatString (String.mk ((("location=") : String).data ++ f.data)) =
      Except.ok (pyReplacePlus f) :=
    formatString_mk (("location") : String).data f (by decide) hef
  have hfs6 : formatString (String.mk ((("info=") : String).data ++ g.data)) =
      Except.ok (pyReplacePlus g) :=
    formatString_mk (("info") : String).data g (by decide) heg
  have hfs7 : formatString (String.mk ((("url=") : String).data ++ h.data)) =
      Except.ok (pyReplacePlus h) :=
    formatString_mk (("url") : String).data h (by decide) heh
  simp only [post_request, hlast, except_bind_ok, hunq, hsplitStr]
  simp only [pyIndex, List.get?_cons_zero, List.get?_cons_succ, except_bind_ok,
    hfs0, hfs1, hfs2, hfs3, hfs4, hfs5, hfs6, hfs7]
  simp [set_status, add_header, set_content]

/-- Witness for C3: a concrete two-line POST request whose body carries
eight fields, the first value containing a `+` that decodes to a space. -/
theorem claim3_post_echo_witness :
    post_request [("POST / HTTP/1.1"),
        ("event=a+1&day=b2&start=c&end=d&phone=e&location=f&info=g&url=h2")] =
      Except.ok (ResponseBuilder.mk [("Connection: close")]
        (some ("HTTP/1.1 200 OK"))
        (Content.bytes (utf8Encode (htmlDoc ("a 1") ("b2") ("c") ("d") ("e")
          ("f") ("g") ("h2"))))
        (some ("text/html")))
    ∧ chunksIn (htmlDoc ("a 1") ("b2") ("c") ("d") ("e") ("f") ("g") ("h2"))
        [cellTag ("event"), cellTag ("a 1"),
         cellTag ("day"), cellTag ("b2"),
         cellTag ("start"), cellTag ("c"),
         cellTag ("end"), cellTag ("d"),
         cellTag ("phone"), cellTag ("e"),
         cellTag ("location"), cellTag ("f"),
         cellTag ("info"), cellTag ("g"),
         cellTag ("url"), cellTag ("h2")] :=
  claim3_post_echo [("POST / HTTP/1.1"),
      ("event=a+1&day=b2&start=c&end=d&phone=e&location=f&info=g&url=h2")]
    ("a+1") ("b2") ("c") ("d") ("e") ("f") ("g") ("h2") (by decide) rfl
